import Mathlib

/-!
Shallow embedding of the locator core of the `unearthtime` repository
(`src/unearthtime/explore/{query,locator,registry,wait}.py` and the
`src/unearthtime/_algae/{deco,utils,warnings}.py` helpers), together with
theorems settling the claims about it.

Modelling conventions:
* Python exceptions are modelled with `Except PyErr`; the driver is a pure
  stub (`Driver`) whose find operations report an outcome (found / raises
  no-such-element / raises timeout / raises some other error).
* Python `None` falling out of a function with no `return` is modelled by
  `Option.none` in the result.
* The explicit-wait branch of the finder functions (`until` not `None`)
  delegates to Selenium `WebDriverWait`, an external collaborator outside
  every claim; the embedding covers the `until is None` branch of each
  finder, and `Locator.__call__` is instrumented to report which wait value
  it resolves (`CallTrace.used_until`) and which queries it issues.
-/

namespace UT

/-- Python exception values that can cross the modelled functions. -/
inductive PyErr where
  | noSuchElementException
  | timeoutException
  | typeError (msg : String)
  | valueError (msg : String)
  | attributeError (msg : String)
  | unearthtime (msg : String)
  deriving Repr, DecidableEq

/-- A DOM element as the driver stub reports it: an identity and whether it
is currently displayed (`WebElement.is_displayed`). -/
structure Element where
  eid : Nat
  displayed : Bool
  deriving Repr, DecidableEq

/-- The response model of `explore/response.py`: `Hit` wraps one element,
`HitList` wraps a sequence (falsy when empty), `Miss` is the falsy
sentinel.  `HitOfSeq es` models the expression `Hit(<raw element list>)`
as written in `fxname`/`fxtag` (the `Hit` constructor applied directly to
the sequence returned by a find-all driver call). -/
inductive Response where
  | Hit (e : Element)
  | HitOfSeq (es : List Element)
  | HitList (es : List Element)
  | Miss
  deriving Repr, DecidableEq

/-- Python truthiness of a response: `Miss.__bool__` is `False`
(`MissType.__bool__`), `HitList.__bool__` is `len > 0`, and `Hit` objects
are truthy like any ordinary object. -/
def Response.truthy : Response → Bool
  | .Hit _ => true
  | .HitOfSeq _ => true
  | .HitList es => !es.isEmpty
  | .Miss => false

/-- The `By` enumeration of `explore/query.py` (closed set of six kinds). -/
inductive By where
  | CLASS | CSS | ID | NAME | TAG | XPATH
  deriving Repr, DecidableEq

/-- A value passed where a `By` is expected.  Python is dynamically typed,
so any object can flow into the `by` parameter of `find`/`find_all`;
`member b` is an actual member of the enumeration and `other` is any value
that is not one (it compares unequal to every member, so the dispatch
chains fall through to their `else: raise`). -/
inductive ByArg where
  | member (b : By)
  | other
  deriving Repr, DecidableEq

/-- Outcome of a `find_element_by_*` driver call. -/
inductive FindOutcome where
  | found (e : Element)
  | noSuchElement
  | timeout
  | otherError
  deriving Repr, DecidableEq

/-- Outcome of a `find_elements_by_*` driver call. -/
inductive FindAllOutcome where
  | found (es : List Element)
  | noSuchElement
  | timeout
  | otherError
  deriving Repr, DecidableEq

/-- The external driver stub: for each selector kind and query text it
reports what the native find-one / find-all operation does. -/
structure Driver where
  findOne : By → String → FindOutcome
  findAll : By → String → FindAllOutcome

/-- `parent.find_element_by_*(query)`: returns the element or raises. -/
def Driver.find_element (d : Driver) (b : By) (q : String) : Except PyErr Element :=
  match d.findOne b q with
  | .found e => .ok e
  | .noSuchElement => .error .noSuchElementException
  | .timeout => .error .timeoutException
  | .otherError => .error (.typeError "driver failure")

/-- `parent.find_elements_by_*(query)`: returns the element list or raises. -/
def Driver.find_elements (d : Driver) (b : By) (q : String) : Except PyErr (List Element) :=
  match d.findAll b q with
  | .found es => .ok es
  | .noSuchElement => .error .noSuchElementException
  | .timeout => .error .timeoutException
  | .otherError => .error (.typeError "driver failure")

/-- `_algae/deco.py` `returnonexception(ret, exc)`: run the wrapped
computation; if it raises an exception matched by `exc`, return `ret`
instead, otherwise let the exception propagate. -/
def returnonexception {α : Type} (ret : α) (exc : PyErr → Bool)
    (r : Except PyErr α) : Except PyErr α :=
  match r with
  | .ok a => .ok a
  | .error e => if exc e then .ok ret else .error e

/-- The exception classes caught by `response_of`:
`(NoSuchElementException, TimeoutException)`. -/
def isNoSuchOrTimeout : PyErr → Bool
  | .noSuchElementException => true
  | .timeoutException => true
  | _ => false

/-- `query.py` `response_of(method)`: wrap a lookup so that a
no-such-element or timeout exception becomes `Miss`. -/
def response_of (r : Except PyErr Response) : Except PyErr Response :=
  returnonexception Response.Miss isNoSuchOrTimeout r

/-- `fclass(query)(parent)` on the `until is None` branch:
`Hit(parent.find_element_by_class_name(query)) if parent else Miss`,
wrapped by `response_of`. -/
def fclass (query : String) (parent : Option Driver) : Except PyErr Response :=
  response_of (match parent with
    | some d => (d.find_element .CLASS query).map Response.Hit
    | none => .ok Response.Miss)

/-- `fcss(query)(parent)` on the `until is None` branch. -/
def fcss (query : String) (parent : Option Driver) : Except PyErr Response :=
  response_of (match parent with
    | some d => (d.find_element .CSS query).map Response.Hit
    | none => .ok Response.Miss)

/-- `fid(query)(parent)` on the `until is None` branch. -/
def fid (query : String) (parent : Option Driver) : Except PyErr Response :=
  response_of (match parent with
    | some d => (d.find_element .ID query).map Response.Hit
    | none => .ok Response.Miss)

/-- `fname(query)(parent)` on the `until is None` branch. -/
def fname (query : String) (parent : Option Driver) : Except PyErr Response :=
  response_of (match parent with
    | some d => (d.find_element .NAME query).map Response.Hit
    | none => .ok Response.Miss)

/-- `ftag(query)(parent)` on the `until is None` branch. -/
def ftag (query : String) (parent : Option Driver) : Except PyErr Response :=
  response_of (match parent with
    | some d => (d.find_element .TAG query).map Response.Hit
    | none => .ok Response.Miss)

/-- `fxpath(query)(parent)` on the `until is None` branch. -/
def fxpath (query : String) (parent : Option Driver) : Except PyErr Response :=
  response_of (match parent with
    | some d => (d.find_element .XPATH query).map Response.Hit
    | none => .ok Response.Miss)

/-- `fxclass(query)(parent)` on the `until is None` branch:
`HitList(parent.find_elements_by_class_name(query)) if parent else Miss`. -/
def fxclass (query : String) (parent : Option Driver) : Except PyErr Response :=
  response_of (match parent with
    | some d => (d.find_elements .CLASS query).map Response.HitList
    | none => .ok Response.Miss)

/-- `fxcss(query)(parent)` on the `until is None` branch. -/
def fxcss (query : String) (parent : Option Driver) : Except PyErr Response :=
  response_of (match parent with
    | some d => (d.find_elements .CSS query).map Response.HitList
    | none => .ok Response.Miss)

/-- `fxid(query)(parent)` on the `until is None` branch. -/
def fxid (query : String) (parent : Option Driver) : Except PyErr Response :=
  response_of (match parent with
    | some d => (d.find_elements .ID query).map Response.HitList
    | none => .ok Response.Miss)

/-- `fxname(query)(parent)` on the `until is None` branch.  Note: the
source wraps the raw element sequence in `Hit`, not `HitList`:
`Hit(parent.find_elements_by_name(query)) if parent else Miss`. -/
def fxname (query : String) (parent : Option Driver) : Except PyErr Response :=
  response_of (match parent with
    | some d => (d.find_elements .NAME query).map Response.HitOfSeq
    | none => .ok Response.Miss)

/-- `fxtag(query)(parent)` on the `until is None` branch.  Note: the
source wraps the raw element sequence in `Hit`, not `HitList`:
`Hit(parent.find_elements_by_tag_name(query)) if parent else Miss`. -/
def fxtag (query : String) (parent : Option Driver) : Except PyErr Response :=
  response_of (match parent with
    | some d => (d.find_elements .TAG query).map Response.HitOfSeq
    | none => .ok Response.Miss)

/-- `fxxpath(query)(parent)` on the `until is None` branch. -/
def fxxpath (query : String) (parent : Option Driver) : Except PyErr Response :=
  response_of (match parent with
    | some d => (d.find_elements .XPATH query).map Response.HitList
    | none => .ok Response.Miss)

/-- `query.py` `find(query, by, parent)`: dispatch on the `by` value in
the order of the source `if`/`elif` chain; any value that is not a member
of the enumeration falls to `raise UnearthtimeException(...)`. -/
def find (query : String) (b : ByArg) (parent : Option Driver) : Except PyErr Response :=
  match b with
  | .member .ID => fid query parent
  | .member .CSS => fcss query parent
  | .member .XPATH => fxpath query parent
  | .member .CLASS => fclass query parent
  | .member .TAG => ftag query parent
  | .member .NAME => fname query parent
  | .other => .error (.unearthtime "Unrecognized By flag.")

/-- `query.py` `find_all(query, by, parent)`: dispatch like `find` but to
the find-all finders. -/
def find_all (query : String) (b : ByArg) (parent : Option Driver) : Except PyErr Response :=
  match b with
  | .member .ID => fxid query parent
  | .member .CSS => fxcss query parent
  | .member .XPATH => fxxpath query parent
  | .member .CLASS => fxclass query parent
  | .member .TAG => fxtag query parent
  | .member .NAME => fxname query parent
  | .other => .error (.unearthtime "Unrecognized By flag.")

/-- A `Term` of a locator (`locator.py`): either a literal selector string
or a callable producing one from call-time positional and keyword
arguments. -/
inductive Term where
  | lit (s : String)
  | fn (f : List String → List (String × String) → String)

/-- `callable(term)`. -/
def Term.isCallable : Term → Bool
  | .lit _ => false
  | .fn _ => true

/-- `term(*args, **kwargs) if callable(term) else term`. -/
def Term.resolve : Term → List String → List (String × String) → String
  | .lit s, _, _ => s
  | .fn f, args, kwargs => f args kwargs

/-- The `terms` field: one term (a string or callable) or a list of
terms.  `is_nonstring_iterable(self.terms)` holds exactly of `many`. -/
inductive Terms where
  | one (t : Term)
  | many (ts : List Term)

/-- `callable(self.terms) or (is_nonstring_iterable(self.terms) and
any(map(callable, self.terms)))`. -/
def Terms.anyCallable : Terms → Bool
  | .one t => t.isCallable
  | .many ts => ts.any Term.isCallable

/-- The `by` field: a single `By` member or a list of them
(`isinstance(self.by, Iterable)` holds exactly of `many`). -/
inductive Bys where
  | one (b : By)
  | many (bs : List By)

/-- The value the single-term branch passes to `find`/`find_all` as the
`by` argument.  A list of `By` members is itself not a member of the
enumeration, so it compares unequal to every member in the dispatch chain. -/
def Bys.asByValue : Bys → ByArg
  | .one b => .member b
  | .many _ => .other

/-- The `Locator` dataclass of `locator.py`.  `W` is the (opaque) type of
wait conditions; Python truthiness of a wait value is `Option.isSome`
(callables are truthy, `None` is falsy).  `ForcedLocator` adds no fields. -/
structure Locator (W : Type) where
  terms : Terms
  by_ : Bys := .one .CSS
  list_ : Bool := false
  until_ : Option W := none

/-- `ForcedLocator` is a `Locator` with its own `__call__`. -/
abbrev ForcedLocator (W : Type) := Locator W

/-- `ForcedLocator.from_locator(locator)`: copies the four fields. -/
def ForcedLocator.from_locator {W : Type} (l : Locator W) : ForcedLocator W :=
  ⟨l.terms, l.by_, l.list_, l.until_⟩

/-- Lines 106-109 of `Locator.__call__` (identical in
`ForcedLocator.__call__`): `if until and self.until:
overridinguseof(self.until, until)` (the call-time `until` stays in use
and a warning is emitted) `else: until = self.until`.  Returns the wait
value actually used for the query and whether the warning fired. -/
def Locator.resolve_until {W : Type} (stored callTime : Option W) : Option W × Bool :=
  if callTime.isSome && stored.isSome then (callTime, true) else (stored, false)

/-- `where(lambda hit: hit.is_displayed(), hits)` applied to a find-all
response: filtering iterates the response, which succeeds only on a
`HitList`; a `Hit` object (including `Hit` applied to a raw sequence) is
not iterable, so Python raises a `TypeError` there.  (The `Miss` case is
unreachable: `where` is only evaluated after a truthiness check.) -/
def Response.displayed_where : Response → Except PyErr (List Element)
  | .HitList es => .ok (es.filter fun e => e.displayed)
  | .HitOfSeq _ => .error (.typeError "Hit object is not iterable")
  | .Hit _ => .error (.typeError "Hit object is not iterable")
  | .Miss => .error (.typeError "Miss is not iterable")

/-- `hit.is_displayed()` on a find-one response.  `find` only produces
`Hit` or `Miss`, and the call is guarded by a truthiness check, so only
the `Hit` case is reachable; on the other shapes attribute lookup fails. -/
def Response.is_displayed_call : Response → Except PyErr Bool
  | .Hit e => .ok e.displayed
  | _ => .error (.attributeError "is_displayed")

/-- Instrumentation record for a locator invocation: the queries actually
issued to the driver in order, the wait value resolved for them, and
whether the overriding-use warning was emitted. -/
structure CallTrace (W : Type) where
  queried : List (String × ByArg)
  used_until : Option W
  warned : Bool

/-- The candidate loop of `Locator.__call__` (lines 121-130): try each
`(term, by)` pair in order; a pair qualifies when its query result is
truthy and passes the visibility check (some displayed element for
`list_`, a displayed hit otherwise); the first qualifying response is
returned at once, and exhaustion returns `Miss` (the loop `else`).
Alongside the response, the list of queries issued is returned. -/
def Locator.candidate_loop {W : Type} (d : Driver) (lst : Bool) (args : List String)
    (kwargs : List (String × String)) :
    List (Term × By) → Except PyErr (Response × List (String × ByArg))
  | [] => .ok (Response.Miss, [])
  | (t, b) :: rest =>
    let query := t.resolve args kwargs
    if lst then
      match find_all query (.member b) (some d) with
      | .error e => .error e
      | .ok hits =>
        if hits.truthy then
          match hits.displayed_where with
          | .error e => .error e
          | .ok vis =>
            if !vis.isEmpty then .ok (hits, [(query, .member b)])
            else
              match Locator.candidate_loop (W := W) d lst args kwargs rest with
              | .error e => .error e
              | .ok (r, qs) => .ok (r, (query, .member b) :: qs)
        else
          match Locator.candidate_loop (W := W) d lst args kwargs rest with
          | .error e => .error e
          | .ok (r, qs) => .ok (r, (query, .member b) :: qs)
    else
      match find query (.member b) (some d) with
      | .error e => .error e
      | .ok hit =>
        if hit.truthy then
          match hit.is_displayed_call with
          | .error e => .error e
          | .ok disp =>
            if disp then .ok (hit, [(query, .member b)])
            else
              match Locator.candidate_loop (W := W) d lst args kwargs rest with
              | .error e => .error e
              | .ok (r, qs) => .ok (r, (query, .member b) :: qs)
        else
          match Locator.candidate_loop (W := W) d lst args kwargs rest with
          | .error e => .error e
          | .ok (r, qs) => .ok (r, (query, .member b) :: qs)

/-- The candidate loop of `ForcedLocator.__call__` (lines 242-251): same
iteration, but a pair qualifies on truthiness alone. -/
def ForcedLocator.candidate_loop {W : Type} (d : Driver) (lst : Bool) (args : List String)
    (kwargs : List (String × String)) :
    List (Term × By) → Except PyErr (Response × List (String × ByArg))
  | [] => .ok (Response.Miss, [])
  | (t, b) :: rest =>
    let query := t.resolve args kwargs
    if lst then
      match find_all query (.member b) (some d) with
      | .error e => .error e
      | .ok hits =>
        if hits.truthy then .ok (hits, [(query, .member b)])
        else
          match ForcedLocator.candidate_loop (W := W) d lst args kwargs rest with
          | .error e => .error e
          | .ok (r, qs) => .ok (r, (query, .member b) :: qs)
    else
      match find query (.member b) (some d) with
      | .error e => .error e
      | .ok hit =>
        if hit.truthy then .ok (hit, [(query, .member b)])
        else
          match ForcedLocator.candidate_loop (W := W) d lst args kwargs rest with
          | .error e => .error e
          | .ok (r, qs) => .ok (r, (query, .member b) :: qs)

/-- `Locator.__call__(parent, *args, until=until, **kwargs)`.

The three `raiseif` preconditions are translated with the operator
precedence of the source: the first condition is
`bool(args) or (bool(kwargs) and not <any term callable>)`.

In the single-term `list_` branch the source returns the unfiltered
`hits` when the truthiness-and-visibility test passes and otherwise falls
off the `if`/`elif` chain without a `return`, so Python yields `None`
(modelled as `Option.none`); every other path yields a `Response`.
The result carries a `CallTrace` of the queries issued, the resolved
wait value and whether the override warning fired. -/
def Locator.call {W : Type} (L : Locator W) (parent : Option Driver) (args : List String)
    (kwargs : List (String × String)) (untilArg : Option W) :
    Except PyErr (Option Response × CallTrace W) :=
  if args ≠ [] || (kwargs ≠ [] && !L.terms.anyCallable) then
    .error (.unearthtime "Locator does not have any callable terms.")
  else if (args.isEmpty && kwargs.isEmpty) && L.terms.anyCallable then
    .error (.unearthtime "No arguments provided for callable term(s).")
  else
    match parent with
    | none => .error (.unearthtime "No driver or element provided to locate element.")
    | some d =>
      let u := Locator.resolve_until L.until_ untilArg
      match L.terms with
      | .many ts =>
        match L.by_ with
        | .many bs =>
          if ts.length ≠ bs.length then
            .error (.unearthtime "Insufficient term-by pairs.")
          else
            match Locator.candidate_loop (W := W) d L.list_ args kwargs (ts.zip bs) with
            | .error e => .error e
            | .ok (r, qs) => .ok (some r, ⟨qs, u.1, u.2⟩)
        | .one b =>
          match Locator.candidate_loop (W := W) d L.list_ args kwargs
              (ts.zip (List.replicate ts.length b)) with
          | .error e => .error e
          | .ok (r, qs) => .ok (some r, ⟨qs, u.1, u.2⟩)
      | .one t =>
        let query := t.resolve args kwargs
        let ba := L.by_.asByValue
        if L.list_ then
          match find_all query ba (some d) with
          | .error e => .error e
          | .ok hits =>
            if hits.truthy then
              match hits.displayed_where with
              | .error e => .error e
              | .ok vis =>
                if !vis.isEmpty then .ok (some hits, ⟨[(query, ba)], u.1, u.2⟩)
                else .ok (none, ⟨[(query, ba)], u.1, u.2⟩)
            else .ok (none, ⟨[(query, ba)], u.1, u.2⟩)
        else
          match find query ba (some d) with
          | .error e => .error e
          | .ok hit =>
            if hit.truthy then
              match hit.is_displayed_call with
              | .error e => .error e
              | .ok disp =>
                if disp then .ok (some hit, ⟨[(query, ba)], u.1, u.2⟩)
                else .ok (some Response.Miss, ⟨[(query, ba)], u.1, u.2⟩)
            else .ok (some Response.Miss, ⟨[(query, ba)], u.1, u.2⟩)

/-- `ForcedLocator.__call__(parent, *args, until=until, **kwargs)`: same
preconditions and wait resolution; the single-term branch returns the
`find_all`/`find` result unfiltered, the multi-term branch runs the
forced candidate loop. -/
def ForcedLocator.call {W : Type} (L : ForcedLocator W) (parent : Option Driver)
    (args : List String) (kwargs : List (String × String)) (untilArg : Option W) :
    Except PyErr (Option Response × CallTrace W) :=
  if args ≠ [] || (kwargs ≠ [] && !L.terms.anyCallable) then
    .error (.unearthtime "Locator does not have any callable terms.")
  else if (args.isEmpty && kwargs.isEmpty) && L.terms.anyCallable then
    .error (.unearthtime "No arguments provided for callable term(s).")
  else
    match parent with
    | none => .error (.unearthtime "No driver or element provided to locate element.")
    | some d =>
      let u := Locator.resolve_until L.until_ untilArg
      match L.terms with
      | .many ts =>
        match L.by_ with
        | .many bs =>
          if ts.length ≠ bs.length then
            .error (.unearthtime "Insufficient term-by pairs.")
          else
            match ForcedLocator.candidate_loop (W := W) d L.list_ args kwargs (ts.zip bs) with
            | .error e => .error e
            | .ok (r, qs) => .ok (some r, ⟨qs, u.1, u.2⟩)
        | .one b =>
          match ForcedLocator.candidate_loop (W := W) d L.list_ args kwargs
              (ts.zip (List.replicate ts.length b)) with
          | .error e => .error e
          | .ok (r, qs) => .ok (some r, ⟨qs, u.1, u.2⟩)
      | .one t =>
        let query := t.resolve args kwargs
        let ba := L.by_.asByValue
        if L.list_ then
          match find_all query ba (some d) with
          | .error e => .error e
          | .ok r => .ok (some r, ⟨[(query, ba)], u.1, u.2⟩)
        else
          match find query ba (some d) with
          | .error e => .error e
          | .ok r => .ok (some r, ⟨[(query, ba)], u.1, u.2⟩)

/-! ## Registry (`explore/registry.py`)

The registry stores a `ChainMap`: an ordered list of mapping layers, each
modelled as an association list with distinct keys in insertion order
(Python `dict` semantics).  `L` is the type of `Locator` values held by
the registry. -/

/-- A dynamically typed Python value appearing in a caller-supplied
mapping: an actual `Locator`, a string, or anything else (used by the
`isinstance` filters of the registry). -/
inductive PyVal (L : Type) where
  | loc (l : L)
  | str (s : String)
  | other
  deriving Repr, DecidableEq

/-- The `LocatorReference` argument of the registry: a dict with string
keys, an iterable of pairs, or any other (non-dict, non-iterable) value,
of which only its truthiness matters. -/
inductive LocatorReference (L : Type) where
  | dict (entries : List (String × PyVal L))
  | pairs (entries : List (PyVal L × PyVal L))
  | scalar (truthy : Bool)
  deriving Repr, DecidableEq

/-- Python truthiness of a `LocatorReference` (`if locators:`). -/
def LocatorReference.truthy {L : Type} : LocatorReference L → Bool
  | .dict es => !es.isEmpty
  | .pairs es => !es.isEmpty
  | .scalar t => t

/-- A `Registry` object.  `dictionary` is `none` when `__init__` never
assigned `self.__dictionary` (the attribute does not exist); otherwise it
holds the `ChainMap` layers, front first. -/
structure Registry (L : Type) where
  dictionary : Option (List (List (String × L)))
  deriving Repr, DecidableEq

/-- `Registry.__init__(locators)`: when `locators` is falsy (absent,
`None`, empty dict, empty iterable, falsy scalar) the body is skipped and
`self.__dictionary` is never assigned.  Otherwise a single layer is built
(with the `isinstance` filters; `__init__` correctly iterates
`locators.items()` for a dict) or an empty `ChainMap` for a truthy
non-dict non-iterable value. -/
def Registry.init {L : Type} (locators : Option (LocatorReference L)) : Registry L :=
  match locators with
  | none => ⟨none⟩
  | some lr =>
    if !lr.truthy then ⟨none⟩
    else
      match lr with
      | .dict es =>
        ⟨some [es.filterMap fun kv =>
          match kv.2 with
          | .loc l => some (kv.1, l)
          | _ => none]⟩
      | .pairs es =>
        ⟨some [es.filterMap fun kv =>
          match kv.1, kv.2 with
          | .str k, .loc l => some (k, l)
          | _, _ => none]⟩
      | .scalar _ => ⟨some [[]]⟩

/-- Access to `self.__dictionary`: raises `AttributeError` when the
attribute was never assigned. -/
def Registry.getLayers {L : Type} (r : Registry L) :
    Except PyErr (List (List (String × L))) :=
  match r.dictionary with
  | some ms => .ok ms
  | none => .error (.attributeError "_Registry__dictionary")

/-- `ChainMap` lookup: scan layers front to back, first layer containing
the key wins. -/
def chainFind {L : Type} (ms : List (List (String × L))) (k : String) : Option L :=
  match ms with
  | [] => none
  | m :: rest =>
    match m.find? (fun p => p.1 == k) with
    | some p => some p.2
    | none => chainFind rest k

/-- `Registry.__contains__(key)`. -/
def Registry.contains {L : Type} (r : Registry L) (k : String) : Except PyErr Bool :=
  (r.getLayers).map fun ms => (chainFind ms k).isSome

/-- `Registry.__getitem__(key)`: the chained lookup, or `None` when the
key is absent. -/
def Registry.getitem {L : Type} (r : Registry L) (k : String) :
    Except PyErr (Option L) :=
  (r.getLayers).map fun ms => chainFind ms k

/-- `Registry.__len__`. -/
def Registry.len {L : Type} (r : Registry L) : Except PyErr Nat :=
  (r.getLayers).map fun ms => ((ms.map (fun m => m.map Prod.fst)).flatten).eraseDups.length

/-- Insert a string into a sorted list (helper for `sorted(keys)`). -/
def insertSorted (s : String) : List String → List String
  | [] => [s]
  | t :: rest => if s ≤ t then s :: t :: rest else t :: insertSorted s rest

/-- Python `sorted` on a list of strings. -/
def pysorted (l : List String) : List String := l.foldr insertSorted []

/-- `Registry.__iter__`: yield the chained value of every key, keys in
ascending order. -/
def Registry.iter_locators {L : Type} (r : Registry L) : Except PyErr (List L) :=
  (r.getLayers).map fun ms =>
    (pysorted ((ms.map (fun m => m.map Prod.fst)).flatten).eraseDups).filterMap (chainFind ms)

/-- `Registry.delete(key)` (same body as `__delitem__`): remove the key
from the first layer containing it, leaving other layers untouched. -/
def deleteFirst {L : Type} (ms : List (List (String × L))) (k : String) :
    List (List (String × L)) :=
  match ms with
  | [] => []
  | m :: rest =>
    if (m.find? (fun p => p.1 == k)).isSome then (m.filter fun p => p.1 != k) :: rest
    else m :: deleteFirst rest k

/-- `Registry.delete(key)`. -/
def Registry.delete {L : Type} (r : Registry L) (k : String) : Except PyErr (Registry L) :=
  (r.getLayers).map fun ms => ⟨some (deleteFirst ms k)⟩

/-- Python `dict` assignment `m[k] = v`: replace in place when the key is
present, else append in insertion order. -/
def dictSet {L : Type} (m : List (String × L)) (k : String) (l : L) : List (String × L) :=
  if (m.find? (fun p => p.1 == k)).isSome then
    m.map fun p => if p.1 == k then (k, l) else p
  else m ++ [(k, l)]

/-- `Registry.update(key, locator)`: if the key is *not* in the front
layer, `self.__dictionary[key] = locator` — `ChainMap.__setitem__`
writes into the front layer (`maps[0]`); otherwise a new front layer
holding only this binding is spliced in (`maps[0:0] = [...]`).
(A `ChainMap` always has at least one map; an empty layer list cannot
arise from the modelled operations.) -/
def Registry.update {L : Type} (r : Registry L) (k : String) (l : L) :
    Except PyErr (Registry L) :=
  match r.getLayers with
  | .error e => .error e
  | .ok [] => .error (.typeError "ChainMap invariant: no maps")
  | .ok (m0 :: rest) =>
    if (m0.find? (fun p => p.1 == k)).isSome then
      .ok ⟨some ([(k, l)] :: m0 :: rest)⟩
    else
      .ok ⟨some (dictSet m0 k l :: rest)⟩

/-- Python unpacking `key, locator = s` of a string `s`: succeeds exactly
when the string has two characters (yielding the two one-character
strings), otherwise raises `ValueError`. -/
def unpack_two (s : String) : Except PyErr (String × String) :=
  match s.data with
  | [a, b] => .ok (String.mk [a], String.mk [b])
  | _ => .error (.valueError "cannot unpack string key into two values")

/-- The dict comprehension of `Registry.register`:
`{key: locator for key, locator in locators if isinstance(key, str) and
isinstance(locator, Locator)}`.  Iterating a dict yields its *keys*, so
each key string is unpacked into `key, locator`; a key whose length is
not two raises `ValueError`, and for a two-character key `locator` is a
one-character string, never a `Locator`, so the filter drops every
entry.  The comprehension therefore yields the empty dict or raises. -/
def register_dict_comp (L : Type) : List String → Except PyErr (List (String × L))
  | [] => .ok []
  | k :: rest => do
    let _pair ← unpack_two k
    register_dict_comp L rest

/-- `Registry.register(locators)`: build `new_dict` per the source
(dict branch via `register_dict_comp`, iterable branch with the
`isinstance` filters, `else` branch the empty dict), then
`if new_dict: self.__dictionary.maps[0:0] = [new_dict]` — the attribute
is only touched when `new_dict` is non-empty. -/
def Registry.register {L : Type} (r : Registry L) (locators : LocatorReference L) :
    Except PyErr (Registry L) := do
  let new_dict ← match locators with
    | .dict es => register_dict_comp L (es.map Prod.fst)
    | .pairs es => pure (es.filterMap fun kv =>
        match kv.1, kv.2 with
        | .str k, .loc l => some (k, l)
        | _, _ => none)
    | .scalar _ => pure []
  if new_dict.isEmpty then
    pure r
  else do
    let ms ← r.getLayers
    pure ⟨some (new_dict :: ms)⟩

/-! ## Wait predicate (`explore/wait.py`) -/

/-- The result of a Python condition callable: a `bool`, or any non-bool
value (`istrue` only looks at actual `bool` instances). -/
inductive CVal where
  | pybool (b : Bool)
  | nonbool
  deriving Repr, DecidableEq

/-- `_algae/utils.py` `istrue(boolean)`:
`isinstance(boolean, bool) and boolean`. -/
def istrue : CVal → Bool
  | .pybool b => b
  | .nonbool => false

/-- What `Wait.__init__` may receive as `locator`: an already-resolved
element, a `Hit`, or a `Locator`. -/
inductive WaitSource (W : Type) where
  | element (e : Element)
  | hit (e : Element)
  | locator (l : Locator W)

/-- The Python value the stored condition is applied to: the stored
element / `Hit`, or the result of the locator invocation (a `Response`
or `None`). -/
inductive WaitVal (W : Type) where
  | element (e : Element)
  | hit (e : Element)
  | resp (r : Option Response)

/-- The `Wait` class: the source/locator, the stored call arguments and
the condition. -/
structure Wait (W : Type) where
  locator : WaitSource W
  condition : WaitVal W → CVal
  args : List String := []
  kwargs : List (String × String) := []

/-- A Python value a wait invocation could hand to the poll loop: the
boolean that the code computes, or (as the spec describes it) a resolved
element / response.  The source only ever constructs the `bool` shape,
since `istrue` returns a `bool`. -/
inductive PyRet where
  | bool (b : Bool)
  | element (e : Element)
  | hit (e : Element)
  | resp (r : Option Response)
  deriving Repr, DecidableEq

/-- The value `Wait.__call__` applies the condition to:
`self.__locator(driver, *self.__args, **self.__kwargs) if
isinstance(self.__locator, Locator) else self.__locator`. -/
def Wait.resolved {W : Type} (w : Wait W) (driver : Driver) : Except PyErr (WaitVal W) :=
  match w.locator with
  | .locator l => (l.call (some driver) w.args w.kwargs none).map fun p => .resp p.1
  | .element e => .ok (.element e)
  | .hit e => .ok (.hit e)

/-- `Wait.__call__(driver)`: resolve the element if needed and return
`istrue(self.__condition(element))` — a `bool`. -/
def Wait.call {W : Type} (w : Wait W) (driver : Driver) : Except PyErr PyRet :=
  match w.locator with
  | .locator l =>
    (l.call (some driver) w.args w.kwargs none).map fun p =>
      .bool (istrue (w.condition (.resp p.1)))
  | .element e => .ok (.bool (istrue (w.condition (.element e))))
  | .hit e => .ok (.bool (istrue (w.condition (.hit e))))

/-! ## Concrete fixtures for witnesses and counterexamples -/

/-- A displayed element. -/
def elemShown : Element := ⟨1, true⟩

/-- An element that is not displayed. -/
def elemHidden : Element := ⟨2, false⟩

/-- A driver whose every lookup succeeds with `elemShown`. -/
def dAnyFound : Driver := ⟨fun _ _ => .found elemShown, fun _ _ => .found [elemShown]⟩

/-- A driver whose every lookup raises no-such-element. -/
def dNothing : Driver := ⟨fun _ _ => .noSuchElement, fun _ _ => .noSuchElement⟩

/-- A driver whose find-all returns one displayed and one hidden element. -/
def dListShownHidden : Driver :=
  ⟨fun _ _ => .noSuchElement, fun _ _ => .found [elemShown, elemHidden]⟩

/-- A driver whose find-all returns only a hidden element. -/
def dListHiddenOnly : Driver :=
  ⟨fun _ _ => .noSuchElement, fun _ _ => .found [elemHidden]⟩

/-- A single-literal-term CSS locator with no default wait. -/
def locPlainCss : Locator Nat := { terms := .one (.lit "q") }

/-- A list locator with a single literal CSS term. -/
def locListCss : Locator Nat := { terms := .one (.lit "q"), list_ := true }

/-- A locator whose sole term is callable. -/
def locCallable : Locator Nat := { terms := .one (.fn fun a _ => a.headD "") }

/-! ## Claims -/

/-- C2: for every selector kind and every parent, a no-such-element or
timeout exception from the driver is converted to `Miss` by `find` and
`find_all` (never propagated), and a `by` value outside the closed `By`
enumeration makes them raise immediately instead of returning `Miss`. -/
theorem C2_miss_conversion_total :
    (∀ (b : By) (q : String) (d : Driver),
      (d.findOne b q = .noSuchElement ∨ d.findOne b q = .timeout) →
        find q (.member b) (some d) = .ok Response.Miss) ∧
    (∀ (b : By) (q : String) (d : Driver),
      (d.findAll b q = .noSuchElement ∨ d.findAll b q = .timeout) →
        find_all q (.member b) (some d) = .ok Response.Miss) ∧
    (∀ (q : String) (parent : Option Driver),
      find q .other parent = .error (.unearthtime "Unrecognized By flag.") ∧
      find_all q .other parent = .error (.unearthtime "Unrecognized By flag.")) := by
  refine ⟨?_, ?_, ?_⟩
  · intro b q d h
    cases b <;> rcases h with h | h <;>
      simp [find, fid, fcss, fxpath, fclass, ftag, fname, response_of, returnonexception,
        Driver.find_element, isNoSuchOrTimeout, h] <;> rfl
  · intro b q d h
    cases b <;> rcases h with h | h <;>
      simp [find_all, fxid, fxcss, fxxpath, fxclass, fxtag, fxname, response_of,
        returnonexception, Driver.find_elements, isNoSuchOrTimeout, h] <;> rfl
  · intro q parent
    exact ⟨rfl, rfl⟩

/-- Witness for C2 at concrete inputs. -/
theorem C2_miss_conversion_total_witness :
    find "q" (.member .CSS) (some dNothing) = .ok Response.Miss ∧
    find_all "q" (.member .XPATH) (some dNothing) = .ok Response.Miss ∧
    find "q" .other none = .error (.unearthtime "Unrecognized By flag.") :=
  ⟨C2_miss_conversion_total.1 .CSS "q" dNothing (Or.inl rfl),
   C2_miss_conversion_total.2.1 .XPATH "q" dNothing (Or.inl rfl),
   (C2_miss_conversion_total.2.2 "q" none).1⟩

/-- C8 (code bug): on a successful find-all, the `NAME` and `TAG` cases
wrap the raw element sequence in `Hit` instead of `HitList` (the other
four kinds, e.g. `CSS`, correctly wrap in `HitList`). -/
theorem C8_find_all_name_tag_wrap_hit :
    find_all "q" (.member .NAME) (some dAnyFound) = .ok (Response.HitOfSeq [elemShown]) ∧
    find_all "q" (.member .TAG) (some dAnyFound) = .ok (Response.HitOfSeq [elemShown]) ∧
    find_all "q" (.member .CSS) (some dAnyFound) = .ok (Response.HitList [elemShown]) ∧
    Response.HitOfSeq [elemShown] ≠ Response.HitList [elemShown] := by
  refine ⟨rfl, rfl, rfl, by decide⟩

/-- C4 (code bug): because the first `raiseif` condition parenthesizes as
`bool(args) or (bool(kwargs) and not callable-terms)`, a locator whose
sole term is callable raises the takes-no-arguments error as soon as any
positional argument is supplied, instead of proceeding to resolution; the
missing-arguments check (zero arguments, callable term) does fire as the
claim states. -/
theorem C4_args_check_precedence :
    locCallable.call (some dAnyFound) ["category-biodiversity"] [] none =
      .error (.unearthtime "Locator does not have any callable terms.") ∧
    locCallable.call (some dAnyFound) [] [] none =
      .error (.unearthtime "No arguments provided for callable term(s).") := by
  exact ⟨rfl, rfl⟩

/-- C7 (code bug): the wait-resolution lines keep a call-time `until`
only when a stored default is also present (emitting the override
warning); when the locator has no stored wait, `until = self.until`
discards the supplied call-time wait.  The third conjunct shows a full
invocation with `until=5` supplied resolving `used_until = none`. -/
theorem C7_call_time_until_dropped :
    Locator.resolve_until (W := Nat) none (some 5) = (none, false) ∧
    Locator.resolve_until (W := Nat) (some 3) (some 5) = (some 5, true) ∧
    locPlainCss.call (some dAnyFound) [] [] (some 5) =
      .ok (some (Response.Hit elemShown), ⟨[("q", .member .CSS)], none, false⟩) := by
  exact ⟨rfl, rfl, rfl⟩

/-- C10 counterexample: on a registry constructed with no argument, not
*every* operation raises `AttributeError`: a dict registration raises
`ValueError` (the key-unpacking in the dict comprehension fires before
`self.__dictionary` is ever touched), and a registration whose filtered
payload is empty returns silently without touching the attribute — a
no-op, not an error. -/
theorem C10_counterexample :
    (Registry.init (L := Nat) none).register (.dict [("X", .loc 1)]) =
      .error (.valueError "cannot unpack string key into two values") ∧
    PyErr.valueError "cannot unpack string key into two values" ≠
      PyErr.attributeError "_Registry__dictionary" ∧
    (Registry.init (L := Nat) none).register (.pairs []) =
      .ok (Registry.init (L := Nat) none) ∧
    (Registry.init (L := Nat) none).register (.dict [("ab", .loc 1)]) =
      .ok (Registry.init (L := Nat) none) := by
  refine ⟨rfl, by simp, rfl, rfl⟩

/-- C10 amended: constructing a `Registry` with no (or a falsy)
`locators` argument leaves `self.__dictionary` unassigned, so every
subsequent operation that touches the layer stack — membership test,
lookup, length, iteration, deletion, update and any registration whose
filtered payload is non-empty — raises `AttributeError` instead of
treating the registry as empty (while a dict registration raises
`ValueError` first and an empty-payload registration is a silent no-op,
per the counterexample). -/
theorem C10_uninitialized_registry (L : Type) :
    (Registry.init (L := L) none).dictionary = none ∧
    (Registry.init (L := L) (some (.dict []))).dictionary = none ∧
    (Registry.init (L := L) (some (.pairs []))).dictionary = none ∧
    (Registry.init (L := L) (some (.scalar false))).dictionary = none ∧
    (∀ k : String, (Registry.init (L := L) none).contains k =
      .error (.attributeError "_Registry__dictionary")) ∧
    (∀ k : String, (Registry.init (L := L) none).getitem k =
      .error (.attributeError "_Registry__dictionary")) ∧
    ((Registry.init (L := L) none).len =
      .error (.attributeError "_Registry__dictionary")) ∧
    ((Registry.init (L := L) none).iter_locators =
      .error (.attributeError "_Registry__dictionary")) ∧
    (∀ k : String, (Registry.init (L := L) none).delete k =
      .error (.attributeError "_Registry__dictionary")) ∧
    (∀ (k : String) (l : L), (Registry.init (L := L) none).update k l =
      .error (.attributeError "_Registry__dictionary")) ∧
    (∀ (k : String) (l : L) (ps : List (PyVal L × PyVal L)),
      (Registry.init (L := L) none).register (.pairs ((.str k, .loc l) :: ps)) =
        .error (.attributeError "_Registry__dictionary")) := by
  refine ⟨rfl, rfl, rfl, rfl, fun k => rfl, fun k => rfl, rfl, rfl, fun k => rfl,
    fun k l => rfl, fun k l ps => rfl⟩

/-- The seeded registry used for the registration evaluations: one layer
holding the binding `seed` to `0`. -/
def regSeeded : Registry Nat := Registry.init (some (.pairs [(.str "seed", .loc 0)]))

/-- C5 (code bug): `Registry.register` on a dict iterates the dict itself
(its keys) instead of `.items()`; each key string is unpacked into two
variables, so `register` with the mapping holding key `X` raises
`ValueError`, and even with two-character keys every entry fails the
`isinstance(locator, Locator)` filter and nothing at all is registered —
the claimed layering behaviour is unreachable for dict input. -/
theorem C5_register_dict_broken :
    regSeeded.register (.dict [("X", .loc 1)]) =
      .error (.valueError "cannot unpack string key into two values") ∧
    regSeeded.register (.dict [("ab", .loc 1)]) = .ok regSeeded ∧
    regSeeded.getitem "X" = .ok none := by
  exact ⟨rfl, rfl, rfl⟩

/-- A registry whose front layer binds `A` and whose deeper layer binds
`X`, for exercising `update` on a key absent from the front layer. -/
def regTwoLayers : Registry Nat := ⟨some [[("A", 0)], [("X", 1)]]⟩

/-- C6 counterexample: with `X` absent from the front layer but bound in
the deeper layer, `update` writes `X` into the *existing* front layer
(which keeps its other binding `A`) — it does not create a new front
layer containing only `X`. -/
theorem C6_counterexample :
    regTwoLayers.update "X" 2 = .ok ⟨some [[("A", 0), ("X", 2)], [("X", 1)]]⟩ ∧
    regTwoLayers.update "X" 2 ≠ .ok ⟨some [[("X", 2)], [("A", 0)], [("X", 1)]]⟩ := by
  refine ⟨rfl, ?_⟩
  intro h
  rw [show regTwoLayers.update "X" 2 = .ok ⟨some [[("A", 0), ("X", 2)], [("X", 1)]]⟩ from rfl] at h
  simp at h

/-- C6 amended: `update(key, locator)` writes the binding into the
existing front layer when the key is absent from it (deeper layers, and
thus any deeper binding of the key, stay unchanged); when the key *is*
present in the front layer, a new front layer holding only this binding
is spliced in front. -/
theorem C6_update_shadowing {L : Type} (m0 : List (String × L))
    (rest : List (List (String × L))) (k : String) (l : L) :
    (m0.find? (fun p => p.1 == k) = none →
      Registry.update (⟨some (m0 :: rest)⟩ : Registry L) k l =
        .ok ⟨some ((m0 ++ [(k, l)]) :: rest)⟩) ∧
    ((m0.find? (fun p => p.1 == k)).isSome →
      Registry.update (⟨some (m0 :: rest)⟩ : Registry L) k l =
        .ok ⟨some ([(k, l)] :: m0 :: rest)⟩) := by
  constructor
  · intro h
    simp [Registry.update, Registry.getLayers, dictSet, h]
  · intro h
    simp [Registry.update, Registry.getLayers, h]

/-- Witness for the amended C6 at the two-layer registry. -/
theorem C6_update_shadowing_witness :
    Registry.update (⟨some [[("A", 0)], [("X", 1)]]⟩ : Registry Nat) "X" 2 =
      .ok ⟨some [[("A", 0), ("X", 2)], [("X", 1)]]⟩ ∧
    Registry.update (⟨some [[("A", 0)], [("X", 1)]]⟩ : Registry Nat) "A" 3 =
      .ok ⟨some [[("A", 3)], [("A", 0)], [("X", 1)]]⟩ :=
  ⟨(C6_update_shadowing [("A", 0)] [[("X", 1)]] "X" 2).1 rfl,
   (C6_update_shadowing [("A", 0)] [[("X", 1)]] "A" 3).2 rfl⟩

/-- C3 counterexample: a standard single-term list locator returns the
*unfiltered* list when at least one element is displayed (here the
result still contains the hidden element), and when no found element is
displayed the call falls off the `if`/`elif` chain and returns Python
`None`, not `Miss`. -/
theorem C3_counterexample :
    locListCss.call (some dListShownHidden) [] [] none =
      .ok (some (Response.HitList [elemShown, elemHidden]),
        ⟨[("q", .member .CSS)], none, false⟩) ∧
    elemHidden.displayed = false ∧
    locListCss.call (some dListHiddenOnly) [] [] none =
      .ok (none, ⟨[("q", .member .CSS)], none, false⟩) ∧
    (none : Option Response) ≠ some Response.Miss := by
  refine ⟨rfl, rfl, rfl, by simp⟩

/-- C3 amended: for a standard single-literal-term list locator, when the
driver returns a `HitList es`, the call returns the whole unfiltered
`es` if it is non-empty and some element of it is displayed, and returns
Python `None` (a falsy value distinct from `Miss`) otherwise; in the
non-list case a found but undisplayed element does yield `Miss`. -/
theorem C3_single_list_behaviour {W : Type} (d : Driver) (s : String) (b : By)
    (es : List Element) :
    (find_all s (.member b) (some d) = .ok (Response.HitList es) →
      es ≠ [] → es.filter (fun e => e.displayed) ≠ [] →
      Locator.call (W := W) { terms := .one (.lit s), by_ := .one b, list_ := true }
          (some d) [] [] none =
        .ok (some (Response.HitList es), ⟨[(s, .member b)], none, false⟩)) ∧
    (find_all s (.member b) (some d) = .ok (Response.HitList es) →
      es.filter (fun e => e.displayed) = [] →
      Locator.call (W := W) { terms := .one (.lit s), by_ := .one b, list_ := true }
          (some d) [] [] none =
        .ok (none, ⟨[(s, .member b)], none, false⟩)) ∧
    (∀ e : Element, find s (.member b) (some d) = .ok (Response.Hit e) →
      e.displayed = false →
      Locator.call (W := W) { terms := .one (.lit s), by_ := .one b }
          (some d) [] [] none =
        .ok (some Response.Miss, ⟨[(s, .member b)], none, false⟩)) := by
  refine ⟨?_, ?_, ?_⟩
  · intro h hne hvis
    simp [Locator.call, Terms.anyCallable, Term.isCallable, Term.resolve, Bys.asByValue,
      Locator.resolve_until, h, Response.truthy, Response.displayed_where,
      List.isEmpty_eq_false.mpr hne, hvis]
  · intro h hvis
    by_cases hne : es = []
    · subst hne
      simp [Locator.call, Terms.anyCallable, Term.isCallable, Term.resolve, Bys.asByValue,
        Locator.resolve_until, h, Response.truthy]
    · simp [Locator.call, Terms.anyCallable, Term.isCallable, Term.resolve, Bys.asByValue,
        Locator.resolve_until, h, Response.truthy, Response.displayed_where,
        List.isEmpty_eq_false.mpr hne, hvis]
  · intro e h hdisp
    simp [Locator.call, Terms.anyCallable, Term.isCallable, Term.resolve, Bys.asByValue,
      Locator.resolve_until, h, Response.truthy, Response.is_displayed_call, hdisp]

/-- Witness for the amended C3 at concrete drivers. -/
theorem C3_single_list_behaviour_witness :
    Locator.call (W := Nat) { terms := .one (.lit "q"), by_ := .one .CSS, list_ := true }
        (some dListShownHidden) [] [] none =
      .ok (some (Response.HitList [elemShown, elemHidden]),
        ⟨[("q", .member .CSS)], none, false⟩) ∧
    Locator.call (W := Nat) { terms := .one (.lit "q"), by_ := .one .CSS, list_ := true }
        (some dListHiddenOnly) [] [] none =
      .ok (none, ⟨[("q", .member .CSS)], none, false⟩) :=
  ⟨(C3_single_list_behaviour dListShownHidden "q" .CSS [elemShown, elemHidden]).1
      rfl (by simp) (by simp [elemShown]),
   (C3_single_list_behaviour dListHiddenOnly "q" .CSS [elemHidden]).2.1
      rfl (by simp [elemHidden])⟩

/-- A wait predicate built from an already-resolved element whose
condition is constantly `True`. -/
def waitOfElem : Wait Nat := { locator := .element elemShown, condition := fun _ => .pybool true }

/-- C9 counterexample: when the condition holds, `Wait.__call__` returns
the boolean `True`, not the resolved element; and a truthy non-boolean
condition result yields `False` (the `istrue` filter), so the resolved
value is never returned. -/
theorem C9_counterexample :
    waitOfElem.call dAnyFound = .ok (.bool true) ∧
    PyRet.bool true ≠ PyRet.element elemShown ∧
    Wait.call (W := Nat) { locator := .element elemShown, condition := fun _ => .nonbool }
        dAnyFound = .ok (.bool false) := by
  refine ⟨rfl, by decide, rfl⟩

/-- C9 amended: invoking a wait predicate resolves the element if needed
(running the locator with the stored arguments) and returns a *boolean*:
`True` exactly when the condition evaluates to the boolean `True` on the
resolved value, `False` otherwise — never the resolved value itself. -/
theorem C9_wait_returns_bool {W : Type} (w : Wait W) (d : Driver) :
    w.call d = (w.resolved d).map fun v => PyRet.bool (istrue (w.condition v)) := by
  obtain ⟨src, cond, a, kw⟩ := w
  cases src with
  | locator l =>
    cases h : l.call (some d) a kw none <;>
      simp [Wait.call, Wait.resolved, h] <;> rfl
  | element e => rfl
  | hit e => rfl

/-! ## Candidate fallback (C1) -/

/-- The outcome of trying one candidate `(term, by)` pair of the standard
loop: `.ok (some r)` when the candidate qualifies (truthy result passing
the visibility check) with response `r`, `.ok none` when the loop passes
it over, `.error` when the iteration raises. -/
def std_try1 (d : Driver) (lst : Bool) (args : List String)
    (kwargs : List (String × String)) (t : Term) (b : By) :
    Except PyErr (Option Response) :=
  if lst then
    match find_all (t.resolve args kwargs) (.member b) (some d) with
    | .error e => .error e
    | .ok hits =>
      if hits.truthy then
        match hits.displayed_where with
        | .error e => .error e
        | .ok vis => .ok (if !vis.isEmpty then some hits else none)
      else .ok none
  else
    match find (t.resolve args kwargs) (.member b) (some d) with
    | .error e => .error e
    | .ok hit =>
      if hit.truthy then
        match hit.is_displayed_call with
        | .error e => .error e
        | .ok disp => .ok (if disp then some hit else none)
      else .ok none

/-- The outcome of trying one candidate of the forced loop: qualification
is truthiness alone. -/
def forced_try1 (d : Driver) (lst : Bool) (args : List String)
    (kwargs : List (String × String)) (t : Term) (b : By) :
    Except PyErr (Option Response) :=
  if lst then
    match find_all (t.resolve args kwargs) (.member b) (some d) with
    | .error e => .error e
    | .ok hits => .ok (if hits.truthy then some hits else none)
  else
    match find (t.resolve args kwargs) (.member b) (some d) with
    | .error e => .error e
    | .ok hit => .ok (if hit.truthy then some hit else none)

/-- One unfolding step of the standard candidate loop in terms of
`std_try1`. -/
theorem std_loop_cons {W : Type} (d : Driver) (lst : Bool) (args : List String)
    (kwargs : List (String × String)) (t : Term) (b : By) (rest : List (Term × By)) :
    Locator.candidate_loop (W := W) d lst args kwargs ((t, b) :: rest) =
      (match std_try1 d lst args kwargs t b with
      | .error e => .error e
      | .ok (some r) => .ok (r, [(t.resolve args kwargs, .member b)])
      | .ok none =>
        match Locator.candidate_loop (W := W) d lst args kwargs rest with
        | .error e => .error e
        | .ok (r, qs) => .ok (r, (t.resolve args kwargs, .member b) :: qs)) := by
  cases lst with
  | false =>
    cases hf : find (t.resolve args kwargs) (.member b) (some d) with
    | error e => simp [Locator.candidate_loop, std_try1, hf]
    | ok hit =>
      cases ht : hit.truthy with
      | false => simp [Locator.candidate_loop, std_try1, hf, ht]
      | true =>
        cases hd : hit.is_displayed_call with
        | error e => simp [Locator.candidate_loop, std_try1, hf, ht, hd]
        | ok disp =>
          cases disp <;> simp [Locator.candidate_loop, std_try1, hf, ht, hd]
  | true =>
    cases hf : find_all (t.resolve args kwargs) (.member b) (some d) with
    | error e => simp [Locator.candidate_loop, std_try1, hf]
    | ok hits =>
      cases ht : hits.truthy with
      | false => simp [Locator.candidate_loop, std_try1, hf, ht]
      | true =>
        cases hd : hits.displayed_where with
        | error e => simp [Locator.candidate_loop, std_try1, hf, ht, hd]
        | ok vis =>
          cases hv : vis.isEmpty <;> simp [Locator.candidate_loop, std_try1, hf, ht, hd, hv]

/-- One unfolding step of the forced candidate loop in terms of
`forced_try1`. -/
theorem forced_loop_cons {W : Type} (d : Driver) (lst : Bool) (args : List String)
    (kwargs : List (String × String)) (t : Term) (b : By) (rest : List (Term × By)) :
    ForcedLocator.candidate_loop (W := W) d lst args kwargs ((t, b) :: rest) =
      (match forced_try1 d lst args kwargs t b with
      | .error e => .error e
      | .ok (some r) => .ok (r, [(t.resolve args kwargs, .member b)])
      | .ok none =>
        match ForcedLocator.candidate_loop (W := W) d lst args kwargs rest with
        | .error e => .error e
        | .ok (r, qs) => .ok (r, (t.resolve args kwargs, .member b) :: qs)) := by
  cases lst with
  | false =>
    cases hf : find (t.resolve args kwargs) (.member b) (some d) with
    | error e => simp [ForcedLocator.candidate_loop, forced_try1, hf]
    | ok hit =>
      cases ht : hit.truthy with
      | false => simp [ForcedLocator.candidate_loop, forced_try1, hf, ht]
      | true => simp [ForcedLocator.candidate_loop, forced_try1, hf, ht]
  | true =>
    cases hf : find_all (t.resolve args kwargs) (.member b) (some d) with
    | error e => simp [ForcedLocator.candidate_loop, forced_try1, hf]
    | ok hits =>
      cases ht : hits.truthy with
      | false => simp [ForcedLocator.candidate_loop, forced_try1, hf, ht]
      | true => simp [ForcedLocator.candidate_loop, forced_try1, hf, ht]

/-- The standard loop returns the first qualifying candidate at once:
every earlier candidate is passed over, the qualifying response is
returned, and the queries issued are exactly those up to and including
the winner — later candidates are never queried. -/
theorem std_loop_first {W : Type} (d : Driver) (lst : Bool) (args : List String)
    (kwargs : List (String × String)) (pre post : List (Term × By)) (t : Term) (b : By)
    (r : Response)
    (hpre : ∀ p ∈ pre, std_try1 d lst args kwargs p.1 p.2 = .ok none)
    (ht : std_try1 d lst args kwargs t b = .ok (some r)) :
    Locator.candidate_loop (W := W) d lst args kwargs (pre ++ (t, b) :: post) =
      .ok (r, (pre ++ [(t, b)]).map fun p => (p.1.resolve args kwargs, .member p.2)) := by
  induction pre with
  | nil =>
    rw [List.nil_append, std_loop_cons, ht]
    simp
  | cons p pre ih =>
    obtain ⟨tp, bp⟩ := p
    have hp := hpre (tp, bp) (List.mem_cons_self _ _)
    rw [List.cons_append, std_loop_cons, hp,
      ih fun q hq => hpre q (List.mem_cons_of_mem _ hq)]
    simp

/-- The standard loop returns `Miss` when every candidate is passed
over, having queried them all. -/
theorem std_loop_exhaust {W : Type} (d : Driver) (lst : Bool) (args : List String)
    (kwargs : List (String × String)) (pairs : List (Term × By))
    (h : ∀ p ∈ pairs, std_try1 d lst args kwargs p.1 p.2 = .ok none) :
    Locator.candidate_loop (W := W) d lst args kwargs pairs =
      .ok (Response.Miss, pairs.map fun p => (p.1.resolve args kwargs, .member p.2)) := by
  induction pairs with
  | nil => rfl
  | cons p rest ih =>
    obtain ⟨tp, bp⟩ := p
    rw [std_loop_cons, h (tp, bp) (List.mem_cons_self _ _),
      ih fun q hq => h q (List.mem_cons_of_mem _ hq)]
    simp

/-- Forced-variant analogue of `std_loop_first`. -/
theorem forced_loop_first {W : Type} (d : Driver) (lst : Bool) (args : List String)
    (kwargs : List (String × String)) (pre post : List (Term × By)) (t : Term) (b : By)
    (r : Response)
    (hpre : ∀ p ∈ pre, forced_try1 d lst args kwargs p.1 p.2 = .ok none)
    (ht : forced_try1 d lst args kwargs t b = .ok (some r)) :
    ForcedLocator.candidate_loop (W := W) d lst args kwargs (pre ++ (t, b) :: post) =
      .ok (r, (pre ++ [(t, b)]).map fun p => (p.1.resolve args kwargs, .member p.2)) := by
  induction pre with
  | nil =>
    rw [List.nil_append, forced_loop_cons, ht]
    simp
  | cons p pre ih =>
    obtain ⟨tp, bp⟩ := p
    have hp := hpre (tp, bp) (List.mem_cons_self _ _)
    rw [List.cons_append, forced_loop_cons, hp,
      ih fun q hq => hpre q (List.mem_cons_of_mem _ hq)]
    simp

/-- Forced-variant analogue of `std_loop_exhaust`. -/
theorem forced_loop_exhaust {W : Type} (d : Driver) (lst : Bool) (args : List String)
    (kwargs : List (String × String)) (pairs : List (Term × By))
    (h : ∀ p ∈ pairs, forced_try1 d lst args kwargs p.1 p.2 = .ok none) :
    ForcedLocator.candidate_loop (W := W) d lst args kwargs pairs =
      .ok (Response.Miss, pairs.map fun p => (p.1.resolve args kwargs, .member p.2)) := by
  induction pairs with
  | nil => rfl
  | cons p rest ih =>
    obtain ⟨tp, bp⟩ := p
    rw [forced_loop_cons, h (tp, bp) (List.mem_cons_self _ _),
      ih fun q hq => h q (List.mem_cons_of_mem _ hq)]
    simp

/-- The term-by pairing computed in the multi-term branch: a `Bys.many`
must have matching length, a single `By` is replicated across the terms. -/
def bys_paired (ts : List Term) : Bys → Option (List (Term × By))
  | .many bs => if ts.length = bs.length then some (ts.zip bs) else none
  | .one b => some (ts.zip (List.replicate ts.length b))

/-- A multi-term invocation that passes the precondition checks hands the
zipped candidates to the standard loop and wraps its outcome. -/
theorem call_many_terms_loop {W : Type} (L : Locator W) (d : Driver)
    (kwargs : List (String × String)) (uArg : Option W) (ts : List Term)
    (pairs : List (Term × By))
    (hts : L.terms = .many ts) (hp : bys_paired ts L.by_ = some pairs)
    (hck : L.terms.anyCallable = !kwargs.isEmpty) :
    L.call (some d) [] kwargs uArg =
      (match Locator.candidate_loop (W := W) d L.list_ [] kwargs pairs with
      | .error e => .error e
      | .ok (r, qs) =>
        .ok (some r, ⟨qs, (Locator.resolve_until L.until_ uArg).1,
          (Locator.resolve_until L.until_ uArg).2⟩)) := by
  obtain ⟨tms, bys, lst, u⟩ := L
  dsimp only at hts hck ⊢
  subst hts
  cases bys with
  | many bs =>
    simp only [bys_paired] at hp
    by_cases hlen : ts.length = bs.length
    · rw [if_pos hlen] at hp
      obtain rfl : ts.zip bs = pairs := by injection hp
      by_cases hk : kwargs = [] <;>
        simp [Locator.call, hk, hck, List.isEmpty_eq_false, hlen] at hck ⊢
    · rw [if_neg hlen] at hp
      exact absurd hp (by simp)
  | one b =>
    simp only [bys_paired] at hp
    obtain rfl : ts.zip (List.replicate ts.length b) = pairs := by injection hp
    by_cases hk : kwargs = [] <;>
      simp [Locator.call, hk, hck, List.isEmpty_eq_false] at hck ⊢

/-- Forced-variant analogue of `call_many_terms_loop`. -/
theorem forced_call_many_terms_loop {W : Type} (L : ForcedLocator W) (d : Driver)
    (kwargs : List (String × String)) (uArg : Option W) (ts : List Term)
    (pairs : List (Term × By))
    (hts : L.terms = .many ts) (hp : bys_paired ts L.by_ = some pairs)
    (hck : L.terms.anyCallable = !kwargs.isEmpty) :
    ForcedLocator.call L (some d) [] kwargs uArg =
      (match ForcedLocator.candidate_loop (W := W) d L.list_ [] kwargs pairs with
      | .error e => .error e
      | .ok (r, qs) =>
        .ok (some r, ⟨qs, (Locator.resolve_until L.until_ uArg).1,
          (Locator.resolve_until L.until_ uArg).2⟩)) := by
  obtain ⟨tms, bys, lst, u⟩ := L
  dsimp only at hts hck ⊢
  subst hts
  cases bys with
  | many bs =>
    simp only [bys_paired] at hp
    by_cases hlen : ts.length = bs.length
    · rw [if_pos hlen] at hp
      obtain rfl : ts.zip bs = pairs := by injection hp
      by_cases hk : kwargs = [] <;>
        simp [ForcedLocator.call, hk, hck, List.isEmpty_eq_false, hlen] at hck ⊢
    · rw [if_neg hlen] at hp
      exact absurd hp (by simp)
  | one b =>
    simp only [bys_paired] at hp
    obtain rfl : ts.zip (List.replicate ts.length b) = pairs := by injection hp
    by_cases hk : kwargs = [] <;>
      simp [ForcedLocator.call, hk, hck, List.isEmpty_eq_false] at hck ⊢

/-- C1: for both variants, a multi-candidate locator tries its candidates
in declaration order; the first qualifying candidate (non-empty and, for
the standard variant, visibility-passing) wins and its response is
returned immediately with no later candidate queried; exhaustion returns
`Miss`; and an invocation that passes the precondition checks is exactly
the corresponding loop over the zipped term-by candidates. -/
theorem C1_candidate_fallback :
    (∀ (W : Type) (d : Driver) (lst : Bool) (args : List String)
        (kwargs : List (String × String)) (pre post : List (Term × By)) (t : Term)
        (b : By) (r : Response),
      (∀ p ∈ pre, std_try1 d lst args kwargs p.1 p.2 = .ok none) →
      std_try1 d lst args kwargs t b = .ok (some r) →
      Locator.candidate_loop (W := W) d lst args kwargs (pre ++ (t, b) :: post) =
        .ok (r, (pre ++ [(t, b)]).map fun p => (p.1.resolve args kwargs, .member p.2))) ∧
    (∀ (W : Type) (d : Driver) (lst : Bool) (args : List String)
        (kwargs : List (String × String)) (pairs : List (Term × By)),
      (∀ p ∈ pairs, std_try1 d lst args kwargs p.1 p.2 = .ok none) →
      Locator.candidate_loop (W := W) d lst args kwargs pairs =
        .ok (Response.Miss, pairs.map fun p => (p.1.resolve args kwargs, .member p.2))) ∧
    (∀ (W : Type) (d : Driver) (lst : Bool) (args : List String)
        (kwargs : List (String × String)) (pre post : List (Term × By)) (t : Term)
        (b : By) (r : Response),
      (∀ p ∈ pre, forced_try1 d lst args kwargs p.1 p.2 = .ok none) →
      forced_try1 d lst args kwargs t b = .ok (some r) →
      ForcedLocator.candidate_loop (W := W) d lst args kwargs (pre ++ (t, b) :: post) =
        .ok (r, (pre ++ [(t, b)]).map fun p => (p.1.resolve args kwargs, .member p.2))) ∧
    (∀ (W : Type) (d : Driver) (lst : Bool) (args : List String)
        (kwargs : List (String × String)) (pairs : List (Term × By)),
      (∀ p ∈ pairs, forced_try1 d lst args kwargs p.1 p.2 = .ok none) →
      ForcedLocator.candidate_loop (W := W) d lst args kwargs pairs =
        .ok (Response.Miss, pairs.map fun p => (p.1.resolve args kwargs, .member p.2))) ∧
    (∀ (W : Type) (L : Locator W) (d : Driver) (kwargs : List (String × String))
        (uArg : Option W) (ts : List Term) (pairs : List (Term × By)),
      L.terms = .many ts → bys_paired ts L.by_ = some pairs →
      L.terms.anyCallable = !kwargs.isEmpty →
      L.call (some d) [] kwargs uArg =
        (match Locator.candidate_loop (W := W) d L.list_ [] kwargs pairs with
        | .error e => .error e
        | .ok (r, qs) =>
          .ok (some r, ⟨qs, (Locator.resolve_until L.until_ uArg).1,
            (Locator.resolve_until L.until_ uArg).2⟩))) ∧
    (∀ (W : Type) (L : ForcedLocator W) (d : Driver) (kwargs : List (String × String))
        (uArg : Option W) (ts : List Term) (pairs : List (Term × By)),
      L.terms = .many ts → bys_paired ts L.by_ = some pairs →
      L.terms.anyCallable = !kwargs.isEmpty →
      ForcedLocator.call L (some d) [] kwargs uArg =
        (match ForcedLocator.candidate_loop (W := W) d L.list_ [] kwargs pairs with
        | .error e => .error e
        | .ok (r, qs) =>
          .ok (some r, ⟨qs, (Locator.resolve_until L.until_ uArg).1,
            (Locator.resolve_until L.until_ uArg).2⟩))) :=
  ⟨fun W d lst args kwargs pre post t b r hpre ht =>
      std_loop_first (W := W) d lst args kwargs pre post t b r hpre ht,
   fun W d lst args kwargs pairs h =>
      std_loop_exhaust (W := W) d lst args kwargs pairs h,
   fun W d lst args kwargs pre post t b r hpre ht =>
      forced_loop_first (W := W) d lst args kwargs pre post t b r hpre ht,
   fun W d lst args kwargs pairs h =>
      forced_loop_exhaust (W := W) d lst args kwargs pairs h,
   fun W L d kwargs uArg ts pairs hts hp hck =>
      call_many_terms_loop (W := W) L d kwargs uArg ts pairs hts hp hck,
   fun W L d kwargs uArg ts pairs hts hp hck =>
      forced_call_many_terms_loop (W := W) L d kwargs uArg ts pairs hts hp hck⟩

/-- A driver that finds a displayed element only for query `t2`. -/
def dSecond : Driver :=
  ⟨fun _ q => if q = "t2" then .found elemShown else .noSuchElement,
   fun _ _ => .noSuchElement⟩

/-- Witness for C1: with candidates `t1`, `t2`, `t3` and a driver that
only satisfies `t2`, the standard loop returns the `t2` hit and queries
only `t1` and `t2`; the all-miss driver exhausts to `Miss`. -/
theorem C1_candidate_fallback_witness :
    Locator.candidate_loop (W := Nat) dSecond false [] []
        [(.lit "t1", .CSS), (.lit "t2", .CSS), (.lit "t3", .CSS)] =
      .ok (Response.Hit elemShown, [("t1", .member .CSS), ("t2", .member .CSS)]) ∧
    ForcedLocator.candidate_loop (W := Nat) dNothing false [] []
        [(.lit "t1", .CSS), (.lit "t2", .CSS)] =
      .ok (Response.Miss, [("t1", .member .CSS), ("t2", .member .CSS)]) :=
  ⟨C1_candidate_fallback.1 Nat dSecond false [] [] [(.lit "t1", .CSS)]
      [(.lit "t3", .CSS)] (.lit "t2") .CSS (Response.Hit elemShown)
      (by intro p hp; rw [List.mem_singleton] at hp; subst hp; rfl) rfl,
   C1_candidate_fallback.2.2.2.1 Nat dNothing false [] []
      [(.lit "t1", .CSS), (.lit "t2", .CSS)]
      (by
        intro p hp
        rcases List.mem_cons.mp hp with h | h
        · subst h; rfl
        · rw [List.mem_singleton] at h; subst h; rfl)⟩

end UT
